import Mathlib

/-!
Verification of the collaborative-filtering recommendation engine
(`ml_integration.py` and `java_python_bridge.py`).

The Python code is embedded shallowly:

* ratings are modelled as exact rationals (`ℚ`);
* the SQLite table `user_interactions` is a list of rows, with the
  `INSERT OR REPLACE` write modelled by deleting the rows that share the
  primary key `(user_id, item_id, timestamp)` and appending the new row;
* `datetime.now()` is passed in explicitly as the `now` argument;
* the value stored under the key `"collaborative"` of `MLEngine.models`
  is a tagged variant: either the fallback-marker dictionary that
  `_train_collaborative_filtering` installs when scikit-learn is missing,
  or a trained model record; `Option` records whether the key is present;
* `list.sort(key=..., reverse=True)` (a stable sort) is modelled by
  `List.mergeSort` with the comparison `recScore b ≤ recScore a`, which
  is the unique stable descending sort;
* the cosine-similarity matrices computed by the model builder are
  modelled over `ℝ` (`cosine_similarity` below); division by a zero norm
  yields 0 in Lean, matching the zero-vector convention of the builder.
-/

namespace RecSys

/-- Result dictionary of `MLEngine.predict_rating`. -/
structure PredictionResult where
  rating : ℚ
  confidence : ℚ
  method : String
deriving Repr, DecidableEq

/-- The trained collaborative model stored under the `"collaborative"`
key of `self.models`: similarity matrices, the index orderings, and the
pivot table (rows = users, columns = items, 0 for a missing rating). -/
structure CollabModel where
  user_similarity : List (List ℚ)
  item_similarity : List (List ℚ)
  user_index : List String
  item_index : List String
  pivot_table : List (List ℚ)
deriving Repr, DecidableEq

/-- The value stored under the `"collaborative"` key of `MLEngine.models`:
either the fallback marker installed when scikit-learn is unavailable,
or a trained model. -/
inductive CollabEntry where
  | fallbackTag : CollabEntry
  | trained : CollabModel → CollabEntry
deriving Repr, DecidableEq

/-- Extraction of column `j` of the pivot table,
as in `pivot_table.iloc[:, item_idx]`. -/
def column (rows : List (List ℚ)) (j : Nat) : List ℚ :=
  rows.map (fun row => row.getD j 0)

/-- Embedding of `np.clip(x, lo, hi)`. -/
def clip (x lo hi : ℚ) : ℚ := min (max x lo) hi

/-- The row of the user similarity matrix selected by
`user_similarities = model["user_similarity"][user_idx]`. -/
def user_similarities_of (m : CollabModel) (user_id : String) : List ℚ :=
  m.user_similarity.getD (m.user_index.indexOf user_id) []

/-- The observed-rating vector of the item across all users,
`item_ratings = pivot_table.iloc[:, item_idx]`. -/
def item_ratings_of (m : CollabModel) (item_id : String) : List ℚ :=
  column m.pivot_table (m.item_index.indexOf item_id)

/-- The neighbor set
`similar_users = np.where((user_similarities > 0.1) & (item_ratings > 0))[0]`:
row indices whose similarity to the user exceeds 0.1 and whose observed
rating of the item is positive. -/
def similar_users_of (m : CollabModel) (user_id item_id : String) : List Nat :=
  (List.range m.pivot_table.length).filter
    (fun u => decide ((user_similarities_of m user_id).getD u 0 > 0.1) &&
              decide ((item_ratings_of m item_id).getD u 0 > 0))

/-- The weight vector `weights = user_similarities[similar_users]`. -/
def weights_of (m : CollabModel) (user_id item_id : String) : List ℚ :=
  (similar_users_of m user_id item_id).map
    (fun u => (user_similarities_of m user_id).getD u 0)

/-- The rating vector `ratings = item_ratings.iloc[similar_users]`. -/
def neighbor_ratings_of (m : CollabModel) (user_id item_id : String) : List ℚ :=
  (similar_users_of m user_id item_id).map
    (fun u => (item_ratings_of m item_id).getD u 0)

/-- Embedding of `np.average(ratings, weights=weights)`. -/
def weightedAverage (ratings weights : List ℚ) : ℚ :=
  (List.zipWith (fun r w => r * w) ratings weights).sum / weights.sum

/-- The nonzero observed ratings of the item,
`item_ratings[item_ratings > 0]`, whose mean is the item-average
fallback. -/
def itemNonzeroRatings (m : CollabModel) (item_id : String) : List ℚ :=
  (item_ratings_of m item_id).filter (fun r => decide (r > 0))

/-- Embedding of `MLEngine._predict_collaborative`.  The `try`/`except`
wrapper of the source never fires in this total embedding; on a model
whose matrix dimensions match its indices every array access is in
range, so the `getD` defaults are inert.  The `np.isnan(item_avg)` test
of the source is the emptiness test on the nonzero ratings of the
item. -/
def _predict_collaborative (entry : CollabEntry) (user_id item_id : String) :
    PredictionResult :=
  match entry with
  | CollabEntry.fallbackTag => ⟨3.5, 0.3, "collaborative"⟩
  | CollabEntry.trained model =>
    if user_id ∈ model.user_index ∧ item_id ∈ model.item_index then
      if 0 < (similar_users_of model user_id item_id).length ∧
         0 < (weights_of model user_id item_id).sum then
        ⟨clip (weightedAverage (neighbor_ratings_of model user_id item_id)
            (weights_of model user_id item_id)) 1 5,
         min (((similar_users_of model user_id item_id).length : ℚ) / 10) 0.9,
         "collaborative"⟩
      else if 0 < (itemNonzeroRatings model item_id).length then
        ⟨(itemNonzeroRatings model item_id).sum
            / ((itemNonzeroRatings model item_id).length : ℚ),
         0.4, "collaborative"⟩
      else
        ⟨3.5, 0.2, "collaborative"⟩
    else
      ⟨3.5, 0.2, "collaborative"⟩

/-- Embedding of `MLEngine.predict_rating`.  `models` is the content of
the `"collaborative"` key of `self.models` (`none` when absent). -/
def predict_rating (models : Option CollabEntry) (user_id item_id : String)
    (method : String) : PredictionResult :=
  match models with
  | some entry =>
    if method = "collaborative" ∨ method = "hybrid" then
      _predict_collaborative entry user_id item_id
    else
      ⟨3.5, 0.3, "fallback"⟩
  | none => ⟨3.5, 0.3, "fallback"⟩

/-- One entry of the list returned by `MLEngine.get_recommendations`. -/
structure Recommendation where
  item_id : String
  predicted_rating : ℚ
  confidence : ℚ
  method : String
deriving Repr, DecidableEq

/-- The sort key of `get_recommendations`:
`x["predicted_rating"] * x["confidence"]`. -/
def recScore (r : Recommendation) : ℚ := r.predicted_rating * r.confidence

/-- Embedding of the Python slice `l[:k]` for an `int` index `k`:
nonnegative `k` takes the first `k` elements, negative `k` drops the
last `-k` elements. -/
def pythonTake (k : Int) (l : List α) : List α :=
  if 0 ≤ k then l.take k.toNat else l.take (l.length - (-k).toNat)

/-- The per-candidate prediction list built by `get_recommendations`
before sorting. -/
def candidateRecs (models : Option CollabEntry) (user_id : String)
    (item_ids : List String) : List Recommendation :=
  item_ids.map (fun item_id =>
    let prediction := predict_rating models user_id item_id "hybrid"
    ⟨item_id, prediction.rating, prediction.confidence, prediction.method⟩)

/-- The comparison used to model
`recommendations.sort(key=score, reverse=True)`: a stable descending
sort places `a` before `b` whenever `recScore b ≤ recScore a`. -/
def recLE (a b : Recommendation) : Bool := decide (recScore b ≤ recScore a)

/-- The fully sorted recommendation list, before truncation. -/
def rankedAll (models : Option CollabEntry) (user_id : String)
    (item_ids : List String) : List Recommendation :=
  (candidateRecs models user_id item_ids).mergeSort recLE

/-- Embedding of `MLEngine.get_recommendations`. -/
def get_recommendations (models : Option CollabEntry) (user_id : String)
    (item_ids : List String) (top_k : Int) : List Recommendation :=
  pythonTake top_k (rankedAll models user_id item_ids)

/-- One row of the `user_interactions` table. -/
structure InteractionRow where
  user_id : String
  item_id : String
  rating : ℚ
  timestamp : String
  context : String
deriving Repr, DecidableEq

/-- Whether two rows collide on the primary key
`(user_id, item_id, timestamp)`. -/
def sameKey (a b : InteractionRow) : Bool :=
  a.user_id == b.user_id && a.item_id == b.item_id && a.timestamp == b.timestamp

/-- Embedding of `INSERT OR REPLACE INTO user_interactions`: the rows
that collide on the primary key are deleted and the new row is
inserted. -/
def insertOrReplace (store : List InteractionRow) (r : InteractionRow) :
    List InteractionRow :=
  store.filter (fun x => !(sameKey x r)) ++ [r]

/-- The state of an `MLEngine` instance: the `"collaborative"` entry of
`self.models` and the `user_interactions` table behind `self.db_path`. -/
structure EngineState where
  models : Option CollabEntry
  store : List InteractionRow
deriving Repr, DecidableEq

/-- Embedding of `MLEngine.update_model_with_feedback`; `now` is the
value of `datetime.now().isoformat()` and `context or ""` maps a missing
context to the empty string. -/
def update_model_with_feedback (s : EngineState) (user_id item_id : String)
    (rating : ℚ) (now : String) (context : Option String) : EngineState :=
  let row := InteractionRow.mk user_id item_id rating now (context.getD "")
  { s with store := insertOrReplace s.store row }

/-- The dictionary returned by `MLEngine.get_model_performance`. -/
structure PerformanceMetrics where
  total_interactions : Nat
  models_available : List String
  status : String
deriving Repr, DecidableEq

/-- The keys of `self.models`, as reported by `get_model_performance`. -/
def modelKeys : Option CollabEntry → List String
  | none => []
  | some _ => ["collaborative"]

/-- Embedding of `MLEngine.get_model_performance`:
`SELECT COUNT(*) FROM user_interactions` is the length of the store. -/
def get_model_performance (s : EngineState) : PerformanceMetrics :=
  ⟨s.store.length, modelKeys s.models, "operational"⟩

/-- Truthiness of an optional string field of a JSON request: `none`
models an absent field (Python `None`), and the empty string is also
falsy. -/
def truthy : Option String → Bool
  | none => false
  | some s => !(s == "")

/-- Response of `JavaPythonBridge._handle_rating_prediction`. -/
inductive PredictResponse where
  | success : PredictionResult → PredictResponse
  | failure : String → PredictResponse
deriving Repr, DecidableEq

/-- Embedding of `JavaPythonBridge._handle_rating_prediction`:
`data.get` yields `none` for a missing field, `method` defaults to
`"hybrid"`, and `if not user_id or not item_id` rejects falsy values. -/
def _handle_rating_prediction (models : Option CollabEntry)
    (user_id item_id method : Option String) : PredictResponse :=
  if truthy user_id && truthy item_id then
    PredictResponse.success
      (predict_rating models (user_id.getD "") (item_id.getD "")
        (method.getD "hybrid"))
  else
    PredictResponse.failure "Missing user_id or item_id"

/-- Response of `JavaPythonBridge._handle_feedback_update`. -/
inductive FeedbackResponse where
  | success : String → FeedbackResponse
  | failure : String → FeedbackResponse
deriving Repr, DecidableEq

/-- Embedding of `JavaPythonBridge._handle_feedback_update`:
`all([user_id, item_id, rating is not None])` tests the truthiness of
the two identifiers but only the presence of `rating`, so the number 0
is an accepted rating. -/
def _handle_feedback_update (s : EngineState) (user_id item_id : Option String)
    (rating : Option ℚ) (context : Option String) (now : String) :
    EngineState × FeedbackResponse :=
  if truthy user_id && truthy item_id && rating.isSome then
    (update_model_with_feedback s (user_id.getD "") (item_id.getD "")
       (rating.getD 0) now context,
     FeedbackResponse.success "Feedback updated")
  else
    (s, FeedbackResponse.failure "Missing required fields")

/-- Dot product of two vectors, over `ℝ`. -/
def dotProd (x y : List ℝ) : ℝ := (List.zipWith (fun a b => a * b) x y).sum

/-- Cosine similarity of two vectors.  When a vector is zero its norm is
zero and the division yields 0, matching the zero-vector convention of
`sklearn.metrics.pairwise.cosine_similarity`. -/
noncomputable def cosine_similarity_pair (x y : List ℝ) : ℝ :=
  dotProd x y / (Real.sqrt (dotProd x x) * Real.sqrt (dotProd y y))

/-- Embedding of `cosine_similarity(matrix)`: the square matrix of
pairwise cosine similarities of the rows. -/
noncomputable def cosine_similarity (rows : List (List ℝ)) : List (List ℝ) :=
  rows.map (fun r => rows.map (fun s => cosine_similarity_pair r s))

/-- The matrix `user_similarity = cosine_similarity(pivot_table.values)`
computed by `_train_collaborative_filtering`. -/
noncomputable def user_similarity_of (pivot : List (List ℝ)) : List (List ℝ) :=
  cosine_similarity pivot

/-- The matrix `item_similarity = cosine_similarity(pivot_table.T.values)`
computed by `_train_collaborative_filtering`. -/
noncomputable def item_similarity_of (pivot : List (List ℝ)) : List (List ℝ) :=
  cosine_similarity pivot.transpose

/-- Every entry of the pivot table is either the 0 sentinel for a missing
rating or a rating in the range `[1, 5]`.  The model builder guarantees
this: each cell of the pivot table is a mean of training ratings, and
every training rating passes through `np.clip(rating, 1.0, 5.0)`. -/
def pivotEntriesClipped (m : CollabModel) : Prop :=
  ∀ row ∈ m.pivot_table, ∀ x ∈ row, x = 0 ∨ (1 ≤ x ∧ x ≤ 5)

/-- The range contract of a prediction: rating in `[1, 5]` and
confidence in `[0, 1]`. -/
def predictionInRange (p : PredictionResult) : Prop :=
  1 ≤ p.rating ∧ p.rating ≤ 5 ∧ 0 ≤ p.confidence ∧ p.confidence ≤ 1

/-- A two-user, two-item model with identical preference vectors, used
to instantiate the theorems below on concrete data. -/
def demoModel : CollabModel :=
  ⟨[[1, 1], [1, 1]], [[1, 0], [0, 1]], ["A", "B"], ["X", "Y"], [[5, 1], [5, 1]]⟩

theorem le_clip (x : ℚ) : 1 ≤ clip x 1 5 :=
  le_min (le_max_right _ _) (by norm_num)

theorem clip_le (x : ℚ) : clip x 1 5 ≤ 5 :=
  min_le_right _ _

theorem mean_bounds (l : List ℚ) (hne : 0 < l.length)
    (h : ∀ x ∈ l, 1 ≤ x ∧ x ≤ 5) :
    1 ≤ l.sum / (l.length : ℚ) ∧ l.sum / (l.length : ℚ) ≤ 5 := by
  have hlen : (0 : ℚ) < (l.length : ℚ) := by exact_mod_cast hne
  constructor
  · rw [le_div_iff₀ hlen]
    have hlow := List.card_nsmul_le_sum l 1 (fun x hx => (h x hx).1)
    rw [nsmul_eq_mul] at hlow
    calc (1 : ℚ) * (l.length : ℚ) = (l.length : ℚ) * 1 := by ring
      _ ≤ l.sum := hlow
  · rw [div_le_iff₀ hlen]
    have hhigh := List.sum_le_card_nsmul l 5 (fun x hx => (h x hx).2)
    rw [nsmul_eq_mul] at hhigh
    calc l.sum ≤ (l.length : ℚ) * 5 := hhigh
      _ = 5 * (l.length : ℚ) := by ring

theorem item_ratings_entry (m : CollabModel) (hm : pivotEntriesClipped m)
    (item_id : String) :
    ∀ x ∈ item_ratings_of m item_id, x = 0 ∨ (1 ≤ x ∧ x ≤ 5) := by
  intro x hx
  unfold item_ratings_of column at hx
  rw [List.mem_map] at hx
  obtain ⟨row, hrow, rfl⟩ := hx
  rcases Nat.lt_or_ge (m.item_index.indexOf item_id) row.length with hj | hj
  · rw [List.getD_eq_getElem row 0 hj]
    exact hm row hrow _ (List.getElem_mem hj)
  · left
    exact List.getD_eq_default row 0 hj

theorem itemNonzeroRatings_bounds (m : CollabModel) (hm : pivotEntriesClipped m)
    (item_id : String) :
    ∀ x ∈ itemNonzeroRatings m item_id, 1 ≤ x ∧ x ≤ 5 := by
  intro x hx
  unfold itemNonzeroRatings at hx
  rw [List.mem_filter] at hx
  obtain ⟨hmem, hposb⟩ := hx
  have hpos : x > 0 := of_decide_eq_true hposb
  rcases item_ratings_entry m hm item_id x hmem with h0 | hb
  · exact absurd hpos (by rw [h0]; exact lt_irrefl 0)
  · exact hb

/-- C1: for every model state whose trained pivot table holds only the 0
sentinel or clipped ratings in `[1, 5]`, and every `user_id`, `item_id`
and `method`, `predict_rating` returns a total result (the embedding is
a total function, so it never raises) whose rating lies in `[1, 5]` and
whose confidence lies in `[0, 1]`; moreover on the item-average fallback
path the returned rating is exactly the mean of the nonzero observed
ratings of the item. -/
theorem claim_C1 (models : Option CollabEntry) (user_id item_id method : String)
    (hmodels : ∀ m, models = some (CollabEntry.trained m) → pivotEntriesClipped m) :
    predictionInRange (predict_rating models user_id item_id method) ∧
    (∀ m, models = some (CollabEntry.trained m) →
      user_id ∈ m.user_index → item_id ∈ m.item_index →
      (method = "collaborative" ∨ method = "hybrid") →
      ¬(0 < (similar_users_of m user_id item_id).length ∧
        0 < (weights_of m user_id item_id).sum) →
      0 < (itemNonzeroRatings m item_id).length →
      (predict_rating models user_id item_id method).rating
        = (itemNonzeroRatings m item_id).sum
            / ((itemNonzeroRatings m item_id).length : ℚ)) := by
  constructor
  · match models with
    | none =>
      simp only [predict_rating]
      norm_num [predictionInRange]
    | some entry =>
      simp only [predict_rating]
      by_cases hm : method = "collaborative" ∨ method = "hybrid"
      · rw [if_pos hm]
        match entry with
        | CollabEntry.fallbackTag =>
          norm_num [predictionInRange, _predict_collaborative]
        | CollabEntry.trained m =>
          have hpiv := hmodels m rfl
          simp only [_predict_collaborative]
          by_cases hmem : user_id ∈ m.user_index ∧ item_id ∈ m.item_index
          · rw [if_pos hmem]
            by_cases hnb : 0 < (similar_users_of m user_id item_id).length ∧
                0 < (weights_of m user_id item_id).sum
            · rw [if_pos hnb]
              refine ⟨le_clip _, clip_le _, le_min (by positivity) (by norm_num), ?_⟩
              exact le_trans (min_le_right _ _) (by norm_num)
            · rw [if_neg hnb]
              by_cases hpos0 : 0 < (itemNonzeroRatings m item_id).length
              · rw [if_pos hpos0]
                have hb := mean_bounds _ hpos0 (itemNonzeroRatings_bounds m hpiv item_id)
                exact ⟨hb.1, hb.2, by norm_num, by norm_num⟩
              · rw [if_neg hpos0]
                norm_num [predictionInRange]
          · rw [if_neg hmem]
            norm_num [predictionInRange]
      · rw [if_neg hm]
        norm_num [predictionInRange]
  · intro m hEq hu hi hm hnb hpos
    subst hEq
    simp only [predict_rating]
    rw [if_pos hm]
    simp only [_predict_collaborative]
    rw [if_pos ⟨hu, hi⟩, if_neg hnb, if_pos hpos]

theorem demoModel_clipped : pivotEntriesClipped demoModel := by
  intro row hrow x hx
  fin_cases hrow <;> fin_cases hx <;> norm_num

theorem claim_C1_witness :
    (∀ m, (some (CollabEntry.trained demoModel) : Option CollabEntry)
        = some (CollabEntry.trained m) → pivotEntriesClipped m) ∧
    predictionInRange
      (predict_rating (some (CollabEntry.trained demoModel)) "A" "X" "hybrid") := by
  have h : ∀ m, (some (CollabEntry.trained demoModel) : Option CollabEntry)
      = some (CollabEntry.trained m) → pivotEntriesClipped m := by
    intro m hEq
    simp only [Option.some.injEq, CollabEntry.trained.injEq] at hEq
    subst hEq
    exact demoModel_clipped
  exact ⟨h, (claim_C1 _ "A" "X" "hybrid" h).1⟩

/-- C2: on a trained model, for a known user and item whose neighbor set
(similarity above 0.1 and positive observed rating) is non-empty with a
positive weight sum, `predict_rating` with method collaborative or
hybrid returns the similarity-weighted average of the observed ratings
of the neighbors clipped to `[1, 5]`, with confidence
`min(neighbor count / 10, 0.9)` and method tag `collaborative`. -/
theorem claim_C2 (m : CollabModel) (user_id item_id method : String)
    (hmethod : method = "collaborative" ∨ method = "hybrid")
    (hu : user_id ∈ m.user_index) (hi : item_id ∈ m.item_index)
    (hne : similar_users_of m user_id item_id ≠ [])
    (hw : 0 < (weights_of m user_id item_id).sum) :
    predict_rating (some (CollabEntry.trained m)) user_id item_id method =
      ⟨clip (weightedAverage (neighbor_ratings_of m user_id item_id)
          (weights_of m user_id item_id)) 1 5,
       min (((similar_users_of m user_id item_id).length : ℚ) / 10) 0.9,
       "collaborative"⟩ := by
  have hlen : 0 < (similar_users_of m user_id item_id).length :=
    List.length_pos.mpr hne
  simp only [predict_rating]
  rw [if_pos hmethod]
  simp only [_predict_collaborative]
  rw [if_pos ⟨hu, hi⟩, if_pos ⟨hlen, hw⟩]

theorem claim_C2_witness :
    "A" ∈ demoModel.user_index ∧ "X" ∈ demoModel.item_index ∧
    similar_users_of demoModel "A" "X" ≠ [] ∧
    0 < (weights_of demoModel "A" "X").sum ∧
    predict_rating (some (CollabEntry.trained demoModel)) "A" "X" "collaborative" =
      ⟨clip (weightedAverage (neighbor_ratings_of demoModel "A" "X")
          (weights_of demoModel "A" "X")) 1 5,
       min (((similar_users_of demoModel "A" "X").length : ℚ) / 10) 0.9,
       "collaborative"⟩ := by
  have hu : "A" ∈ demoModel.user_index := by
    simp [demoModel]
  have hi : "X" ∈ demoModel.item_index := by
    simp [demoModel]
  have hsim : similar_users_of demoModel "A" "X" = [0, 1] := by
    norm_num [similar_users_of, user_similarities_of, item_ratings_of, column,
      demoModel, List.indexOf, List.findIdx, List.findIdx.go, List.range,
      List.range.loop, List.filter]
  have hne : similar_users_of demoModel "A" "X" ≠ [] := by
    rw [hsim]
    exact List.cons_ne_nil _ _
  have hw : 0 < (weights_of demoModel "A" "X").sum := by
    simp only [weights_of]
    rw [hsim]
    norm_num [user_similarities_of, demoModel, List.indexOf, List.findIdx,
      List.findIdx.go]
  exact ⟨hu, hi, hne, hw, claim_C2 demoModel "A" "X" "collaborative"
    (Or.inl rfl) hu hi hne hw⟩

/-- C3 counterexample: with the tagged-fallback model entry (the
fallback-marker dictionary) and requested method `collaborative`,
`predict_rating` does not return the claimed
`{rating: 3.5, confidence: 0.3, method: fallback}`: the early return of
`_predict_collaborative` tags the result `collaborative`. -/
theorem claim_C3_cex :
    ¬ (predict_rating (some CollabEntry.fallbackTag) "u" "i" "collaborative"
        = ⟨3.5, 0.3, "fallback"⟩) := by
  intro h
  have h2 := congrArg PredictionResult.method h
  simp [predict_rating, _predict_collaborative] at h2

/-- C3 as amended: with no model entry at all, every prediction returns
`{rating: 3.5, confidence: 0.3, method: fallback}` for every requested
method; with the tagged-fallback entry, the same rating and confidence
are returned but the method tag is `collaborative` when the requested
method is collaborative or hybrid, and `fallback` otherwise. -/
theorem claim_C3 (user_id item_id method : String) :
    predict_rating none user_id item_id method = ⟨3.5, 0.3, "fallback"⟩ ∧
    predict_rating (some CollabEntry.fallbackTag) user_id item_id method =
      (if method = "collaborative" ∨ method = "hybrid"
       then ⟨3.5, 0.3, "collaborative"⟩ else ⟨3.5, 0.3, "fallback"⟩) := by
  constructor
  · rfl
  · by_cases hm : method = "collaborative" ∨ method = "hybrid"
    · rw [if_pos hm]
      simp only [predict_rating]
      rw [if_pos hm]
      rfl
    · rw [if_neg hm]
      simp only [predict_rating]
      rw [if_neg hm]

/-- C6: on a trained model, an unseen user or unseen item with method
collaborative or hybrid yields `{rating: 3.5, confidence: 0.2, method:
collaborative}`, and in particular the confidence is at most 0.2. -/
theorem claim_C6 (m : CollabModel) (user_id item_id method : String)
    (hmethod : method = "collaborative" ∨ method = "hybrid")
    (hmiss : user_id ∉ m.user_index ∨ item_id ∉ m.item_index) :
    predict_rating (some (CollabEntry.trained m)) user_id item_id method
      = ⟨3.5, 0.2, "collaborative"⟩ ∧
    (predict_rating (some (CollabEntry.trained m)) user_id item_id method).confidence
      ≤ 0.2 := by
  have hmem : ¬ (user_id ∈ m.user_index ∧ item_id ∈ m.item_index) := by
    intro hboth
    rcases hmiss with hx | hx
    · exact hx hboth.1
    · exact hx hboth.2
  have heq : predict_rating (some (CollabEntry.trained m)) user_id item_id method
      = ⟨3.5, 0.2, "collaborative"⟩ := by
    simp only [predict_rating]
    rw [if_pos hmethod]
    simp only [_predict_collaborative]
    rw [if_neg hmem]
  exact ⟨heq, by rw [heq]⟩

theorem claim_C6_witness :
    ("Z" ∉ demoModel.user_index ∨ "X" ∉ demoModel.item_index) ∧
    predict_rating (some (CollabEntry.trained demoModel)) "Z" "X" "hybrid"
      = ⟨3.5, 0.2, "collaborative"⟩ ∧
    (predict_rating (some (CollabEntry.trained demoModel)) "Z" "X" "hybrid").confidence
      ≤ 0.2 := by
  have hmiss : "Z" ∉ demoModel.user_index ∨ "X" ∉ demoModel.item_index := by
    left
    simp [demoModel]
  exact ⟨hmiss, claim_C6 demoModel "Z" "X" "hybrid" (Or.inr rfl) hmiss⟩

theorem recLE_trans : ∀ (a b c : Recommendation),
    recLE a b = true → recLE b c = true → recLE a c = true := by
  intro a b c hab hbc
  simp only [recLE, decide_eq_true_eq] at hab hbc ⊢
  exact le_trans hbc hab

theorem recLE_total : ∀ (a b : Recommendation),
    (recLE a b || recLE b a) = true := by
  intro a b
  simp only [recLE, Bool.or_eq_true, decide_eq_true_eq]
  exact le_total (recScore b) (recScore a)

/-- C4 counterexample: with no model every candidate receives the same
score `3.5 * 0.3`, and on the candidate list `["B", "A"]` the output
keeps the input order `["B", "A"]`; the ties are not reordered by
ascending `item_id`, so the output violates the claimed order. -/
theorem claim_C4_cex :
    ¬ ((get_recommendations none "u" ["B", "A"] 2).Pairwise
        (fun a b => recScore b < recScore a ∨
          (recScore a = recScore b ∧ a.item_id ≤ b.item_id))) := by
  have hcand : candidateRecs none "u" ["B", "A"]
      = [⟨"B", 3.5, 0.3, "fallback"⟩, ⟨"A", 3.5, 0.3, "fallback"⟩] := rfl
  have hsorted : rankedAll none "u" ["B", "A"] = candidateRecs none "u" ["B", "A"] := by
    simp only [rankedAll]
    apply List.mergeSort_of_sorted
    rw [hcand]
    refine List.pairwise_cons.mpr ⟨?_, List.pairwise_singleton _ _⟩
    intro b hb
    simp only [List.mem_singleton] at hb
    subst hb
    simp only [recLE, recScore, decide_eq_true_eq]
    exact le_refl _
  have hout : get_recommendations none "u" ["B", "A"] 2
      = [⟨"B", 3.5, 0.3, "fallback"⟩, ⟨"A", 3.5, 0.3, "fallback"⟩] := by
    rw [get_recommendations, hsorted, hcand]
    simp [pythonTake]
  rw [hout]
  intro h
  have h1 := (List.pairwise_cons.mp h).1 _ (List.mem_singleton.mpr rfl)
  rcases h1 with hlt | ⟨heq, hle⟩
  · exact absurd hlt (by norm_num [recScore])
  · refine absurd hle ?_
    show ¬ ("B" ≤ "A")
    rw [String.le_iff_toList_le]
    decide

/-- C4 as amended: for nonnegative `top_k` the result has at most
`top_k` entries and is sorted in descending order of
`predicted_rating * confidence`; entries with equal scores keep their
relative order from the candidate list (the sort is stable), rather
than being reordered by ascending `item_id`. -/
theorem claim_C4 (models : Option CollabEntry) (user_id : String)
    (item_ids : List String) (top_k : Int) (htop : 0 ≤ top_k) :
    (get_recommendations models user_id item_ids top_k).length ≤ top_k.toNat ∧
    (get_recommendations models user_id item_ids top_k).Pairwise
      (fun a b => recScore b ≤ recScore a) ∧
    (∀ a b : Recommendation,
      List.Sublist [a, b] (candidateRecs models user_id item_ids) →
      recScore b ≤ recScore a →
      List.Sublist [a, b] (rankedAll models user_id item_ids)) := by
  have hsub : List.Sublist (get_recommendations models user_id item_ids top_k)
      (rankedAll models user_id item_ids) := by
    simp only [get_recommendations, pythonTake, if_pos htop]
    exact List.take_sublist _ _
  refine ⟨?_, ?_, ?_⟩
  · simp only [get_recommendations, pythonTake, if_pos htop]
    rw [List.length_take]
    exact min_le_left _ _
  · have hsorted := List.sorted_mergeSort recLE_trans recLE_total
      (candidateRecs models user_id item_ids)
    have hsorted2 : (rankedAll models user_id item_ids).Pairwise
        (fun a b => recLE a b = true) := hsorted
    have hpair := hsorted2.sublist hsub
    exact hpair.imp (fun hab => by
      simpa only [recLE, decide_eq_true_eq] using hab)
  · intro a b hab hscore
    simp only [rankedAll]
    exact List.pair_sublist_mergeSort recLE_trans recLE_total
      (by simp only [recLE, decide_eq_true_eq]; exact hscore) hab

theorem claim_C4_witness :
    (0 : Int) ≤ 1 ∧
    (get_recommendations none "u" ["A"] 1).length ≤ (1 : Int).toNat := by
  exact ⟨by norm_num, (claim_C4 none "u" ["A"] 1 (by norm_num)).1⟩

/-- C5 counterexample: with two candidates and `top_k = -1` the result
is the Python slice `recommendations[:-1]`, which drops only the last
entry; it is not the empty sequence the claim requires for
`top_k ≤ 0`. -/
theorem claim_C5_cex :
    ¬ (get_recommendations none "u" ["A", "B"] (-1) = []) := by
  have hcand : candidateRecs none "u" ["A", "B"]
      = [⟨"A", 3.5, 0.3, "fallback"⟩, ⟨"B", 3.5, 0.3, "fallback"⟩] := rfl
  have hsorted : rankedAll none "u" ["A", "B"] = candidateRecs none "u" ["A", "B"] := by
    simp only [rankedAll]
    apply List.mergeSort_of_sorted
    rw [hcand]
    refine List.pairwise_cons.mpr ⟨?_, List.pairwise_singleton _ _⟩
    intro b hb
    simp only [List.mem_singleton] at hb
    subst hb
    simp only [recLE, recScore, decide_eq_true_eq]
    exact le_refl _
  have hout : get_recommendations none "u" ["A", "B"] (-1)
      = [⟨"A", 3.5, 0.3, "fallback"⟩] := by
    rw [get_recommendations, hsorted, hcand]
    simp [pythonTake]
  rw [hout]
  exact List.cons_ne_nil _ _

/-- C5 as amended: `top_k = 0` yields the empty sequence; nonnegative
`top_k` at least the candidate count yields one entry per candidate;
negative `top_k` follows Python slice semantics and drops the last
`-top_k` entries instead of yielding the empty sequence. -/
theorem claim_C5 (models : Option CollabEntry) (user_id : String)
    (item_ids : List String) (top_k : Int) :
    (top_k = 0 → get_recommendations models user_id item_ids top_k = []) ∧
    (0 ≤ top_k → item_ids.length ≤ top_k.toNat →
      (get_recommendations models user_id item_ids top_k).length = item_ids.length) ∧
    (top_k < 0 →
      (get_recommendations models user_id item_ids top_k).length
        = item_ids.length - (-top_k).toNat) := by
  have hlen : (rankedAll models user_id item_ids).length = item_ids.length := by
    simp only [rankedAll]
    rw [(List.mergeSort_perm _ _).length_eq]
    simp [candidateRecs]
  refine ⟨?_, ?_, ?_⟩
  · intro h
    subst h
    simp [get_recommendations, pythonTake]
  · intro h1 h2
    simp only [get_recommendations, pythonTake, if_pos h1]
    rw [List.length_take, hlen]
    exact min_eq_right h2
  · intro h
    have h0 : ¬ (0 ≤ top_k) := not_le.mpr h
    simp only [get_recommendations, pythonTake, if_neg h0]
    rw [List.length_take, hlen]
    exact min_eq_left (Nat.sub_le _ _)

theorem claim_C5_witness :
    (0 : Int) ≤ 2 ∧ (["A"] : List String).length ≤ (2 : Int).toNat ∧
    (get_recommendations none "u" ["A"] 2).length = (["A"] : List String).length := by
  refine ⟨by norm_num, by norm_num, ?_⟩
  exact (claim_C5 none "u" ["A"] 2).2.1 (by norm_num) (by norm_num)

/-- An engine state holding one interaction row, keyed
`("u", "i", "t")`. -/
def demoState : EngineState :=
  ⟨none, [⟨"u", "i", 1, "t", ""⟩]⟩

/-- C7 counterexample: when the store already holds a row with the same
primary key `(user_id, item_id, timestamp)` as the ingested row, the
`INSERT OR REPLACE` write replaces it and the interaction count does not
grow by one. -/
theorem claim_C7_cex :
    ¬ ((get_model_performance
          (update_model_with_feedback demoState "u" "i" 2 "t" none)).total_interactions
        = (get_model_performance demoState).total_interactions + 1) := by
  have hafter : (get_model_performance
      (update_model_with_feedback demoState "u" "i" 2 "t" none)).total_interactions = 1 := by
    simp [get_model_performance, update_model_with_feedback, insertOrReplace,
      sameKey, demoState]
  rw [hafter]
  have hbefore : (get_model_performance demoState).total_interactions = 1 := rfl
  rw [hbefore]
  norm_num

/-- C7 as amended: ingesting feedback and then reading the report
increases `total_interactions` by exactly one, provided no row already
in the store shares the primary key `(user_id, item_id, timestamp)` with
the ingested row; on a key collision the `INSERT OR REPLACE` write
replaces the old row and the count is unchanged. -/
theorem claim_C7 (s : EngineState) (user_id item_id : String) (rating : ℚ)
    (now : String) (context : Option String)
    (hfresh : ∀ x ∈ s.store,
      sameKey x (InteractionRow.mk user_id item_id rating now (context.getD ""))
        = false) :
    (get_model_performance
        (update_model_with_feedback s user_id item_id rating now context)).total_interactions
      = (get_model_performance s).total_interactions + 1 := by
  simp only [get_model_performance, update_model_with_feedback, insertOrReplace]
  rw [List.filter_eq_self.mpr ?hall]
  case hall =>
    intro a ha
    rw [hfresh a ha]
    rfl
  rw [List.length_append]
  rfl

theorem claim_C7_witness :
    (∀ x ∈ (⟨none, []⟩ : EngineState).store,
      sameKey x (InteractionRow.mk "u" "i" 4 "t" "") = false) ∧
    (get_model_performance
        (update_model_with_feedback ⟨none, []⟩ "u" "i" 4 "t" none)).total_interactions
      = (get_model_performance (⟨none, []⟩ : EngineState)).total_interactions + 1 := by
  have hfresh : ∀ x ∈ (⟨none, []⟩ : EngineState).store,
      sameKey x (InteractionRow.mk "u" "i" 4 "t" "") = false := by
    intro x hx
    exact absurd hx (List.not_mem_nil x)
  exact ⟨hfresh, claim_C7 ⟨none, []⟩ "u" "i" 4 "t" none hfresh⟩

/-- C9: ingesting feedback writes only to the interaction store; the
model snapshot is unchanged and every later prediction against the
updated state uses the same model data as before the ingest. -/
theorem claim_C9 (s : EngineState) (user_id item_id : String) (rating : ℚ)
    (now : String) (context : Option String) :
    (update_model_with_feedback s user_id item_id rating now context).models
      = s.models ∧
    (∀ (u i method : String),
      predict_rating
          (update_model_with_feedback s user_id item_id rating now context).models
          u i method
        = predict_rating s.models u i method) :=
  ⟨rfl, fun _ _ _ => rfl⟩

/-- C10: at the request boundary, a `predict_rating` request whose
`user_id` or `item_id` is absent or the empty string is rejected with
the envelope `{"error": "Missing user_id or item_id"}`; `update_feedback`
likewise rejects an absent or empty `user_id` or `item_id` and leaves
the state untouched; a rating of 0 is accepted, because only a missing
rating is treated as invalid. -/
theorem claim_C10 (models : Option CollabEntry) (s : EngineState)
    (user_id item_id method : Option String) (rating : Option ℚ)
    (context : Option String) (now : String) :
    _handle_rating_prediction models (some "") item_id method
      = PredictResponse.failure "Missing user_id or item_id" ∧
    _handle_rating_prediction models none item_id method
      = PredictResponse.failure "Missing user_id or item_id" ∧
    _handle_rating_prediction models user_id (some "") method
      = PredictResponse.failure "Missing user_id or item_id" ∧
    _handle_rating_prediction models user_id none method
      = PredictResponse.failure "Missing user_id or item_id" ∧
    _handle_feedback_update s (some "") item_id rating context now
      = (s, FeedbackResponse.failure "Missing required fields") ∧
    _handle_feedback_update s user_id (some "") rating context now
      = (s, FeedbackResponse.failure "Missing required fields") ∧
    _handle_feedback_update s (some "u") (some "i") (some 0) context now
      = (update_model_with_feedback s "u" "i" 0 now context,
         FeedbackResponse.success "Feedback updated") := by
  refine ⟨?_, ?_, ?_, ?_, ?_, ?_, ?_⟩
  · simp [_handle_rating_prediction, truthy]
  · simp [_handle_rating_prediction, truthy]
  · cases user_id <;> simp [_handle_rating_prediction, truthy]
  · cases user_id <;> simp [_handle_rating_prediction, truthy]
  · simp [_handle_feedback_update, truthy]
  · cases user_id <;> simp [_handle_feedback_update, truthy]
  · simp [_handle_feedback_update, truthy]

theorem dotProd_comm (x y : List ℝ) : dotProd x y = dotProd y x := by
  unfold dotProd
  rw [List.zipWith_comm_of_comm (fun a b => a * b) mul_comm]

theorem cosine_similarity_pair_comm (x y : List ℝ) :
    cosine_similarity_pair x y = cosine_similarity_pair y x := by
  unfold cosine_similarity_pair
  rw [dotProd_comm x y, mul_comm]

theorem cosine_entry (rows : List (List ℝ)) (i j : Nat)
    (hi : i < rows.length) (hj : j < rows.length) :
    ((cosine_similarity rows).getD i []).getD j 0
      = cosine_similarity_pair rows[i] rows[j] := by
  unfold cosine_similarity
  have hi2 : i < (rows.map
      (fun r => rows.map (fun r2 => cosine_similarity_pair r r2))).length := by
    simpa using hi
  rw [List.getD_eq_getElem _ _ hi2, List.getElem_map]
  have hj2 : j < (rows.map
      (fun r2 => cosine_similarity_pair rows[i] r2)).length := by
    simpa using hj
  rw [List.getD_eq_getElem _ _ hj2, List.getElem_map]

/-- C8: both similarity matrices produced by the trainer are symmetric:
the user matrix is pairwise cosine similarity of the pivot rows and the
item matrix is pairwise cosine similarity of the transposed pivot rows,
and cosine similarity is commutative in its two arguments. -/
theorem claim_C8 (pivot : List (List ℝ)) :
    (∀ i j, i < pivot.length → j < pivot.length →
      ((user_similarity_of pivot).getD i []).getD j 0
        = ((user_similarity_of pivot).getD j []).getD i 0) ∧
    (∀ i j, i < pivot.transpose.length → j < pivot.transpose.length →
      ((item_similarity_of pivot).getD i []).getD j 0
        = ((item_similarity_of pivot).getD j []).getD i 0) := by
  constructor
  · intro i j hi hj
    unfold user_similarity_of
    rw [cosine_entry pivot i j hi hj, cosine_entry pivot j i hj hi,
      cosine_similarity_pair_comm]
  · intro i j hi hj
    unfold item_similarity_of
    rw [cosine_entry pivot.transpose i j hi hj,
      cosine_entry pivot.transpose j i hj hi,
      cosine_similarity_pair_comm]

theorem claim_C8_witness :
    0 < ([[(1 : ℝ), 0], [0, 1]] : List (List ℝ)).length ∧
    1 < ([[(1 : ℝ), 0], [0, 1]] : List (List ℝ)).length ∧
    ((user_similarity_of [[(1 : ℝ), 0], [0, 1]]).getD 0 []).getD 1 0
      = ((user_similarity_of [[(1 : ℝ), 0], [0, 1]]).getD 1 []).getD 0 0 := by
  have h0 : 0 < ([[(1 : ℝ), 0], [0, 1]] : List (List ℝ)).length := by simp
  have h1 : 1 < ([[(1 : ℝ), 0], [0, 1]] : List (List ℝ)).length := by simp
  exact ⟨h0, h1, (claim_C8 [[(1 : ℝ), 0], [0, 1]]).1 0 1 h0 h1⟩

end RecSys
